import Mathlib

/-!
Shallow embedding of the PharmaTrustChain backend (Express + Sequelize/SQLite
+ ethers contract proxy).  The main backend is `src/src/server.ts`; a second
variant (`src/unnamed/part_001`) holds the register-product route and an
alternative revoke-batch route.  Each HTTP route becomes a pure function from
the persistent store (and the outcomes of the awaited external calls, passed
in as `Except` parameters) to an HTTP response, the updated store, and the
list of contract calls attempted during the request.
-/

namespace PharmaTrust

/-- A `User` row (server.ts `User.init`): name/email/role/walletAddress/
licenseNumber all NOT NULL, walletAddress unique, status defaults to
"pending". -/
structure UserRow where
  name : String
  email : String
  role : Int
  walletAddress : String
  licenseNumber : String
  status : String
deriving Repr, DecidableEq

/-- A `PPBRecord` row (server.ts `PPBRecord.init`): the mock PPB registry,
licenseNumber unique. -/
structure PPBRow where
  name : String
  email : String
  licenseNumber : String
  role : Int
deriving Repr, DecidableEq

/-- The SQLite store: the `User` table and the `PPBRecord` table.  Rows are
kept in insertion order; `findOne` becomes `List.find?`. -/
structure Store where
  users : List UserRow
  ppb : List PPBRow
deriving Repr, DecidableEq

/-- A JSON leaf value appearing in the response bodies of the modelled
routes. -/
inductive JVal where
  | s (v : String)
  | b (v : Bool)
  | user (u : UserRow)
deriving Repr, DecidableEq

/-- An HTTP response: `res.status(code).json(body)`, with the body as an
association list of fields. -/
structure Response where
  status : Nat
  body : List (String × JVal)
deriving Repr, DecidableEq

/-- A call into the ethers contract binding attempted during a request. -/
inductive ChainCall where
  | registerUser (wallet name : String) (role : Int)
  | registerProduct (name batchId ipfsHash : String)
  | revokeBatch (batchId : Int) (reason : Option String)
deriving Repr, DecidableEq

/-- `user.save()` after mutating the row found by `findOne`: update the first
row matching the predicate. -/
def updateFirst (p : UserRow → Bool) (f : UserRow → UserRow) :
    List UserRow → List UserRow
  | [] => []
  | u :: us => if p u then f u :: us else u :: updateFirst p f us

/-- `user.destroy()` on the row found by `findOne`: remove the first row
matching the predicate. -/
def removeFirst (p : UserRow → Bool) : List UserRow → List UserRow
  | [] => []
  | u :: us => if p u then us else u :: removeFirst p us

/-- POST /signup (server.ts lines 115-158).  Fields come from `req.body`, so
each may be absent; JS falsiness of `walletAddress` covers both `undefined`
and the empty string.  A `findOne` whose where-value is `undefined` throws in
Sequelize (caught as a 500); `User.create` with a missing NOT NULL column
throws a notNull validation error (caught as a 500). -/
def signup (st : Store) (name email : Option String) (role : Option Int)
    (walletAddress licenseNumber : Option String) : Response × Store :=
  if walletAddress.getD "" = "" then
    (⟨400, [("message", JVal.s "Wallet address required")]⟩, st)
  else
    let wa := walletAddress.getD ""
    match st.users.find? (fun u => u.walletAddress == wa) with
    | some _ =>
      (⟨400, [("message", JVal.s "User already registered locally. Please log in.")]⟩, st)
    | none =>
      match licenseNumber with
      | none =>
        (⟨500, [("error", JVal.s "WHERE parameter licenseNumber has invalid undefined value")]⟩, st)
      | some ln =>
        match st.ppb.find? (fun p => p.licenseNumber == ln) with
        | none =>
          (⟨400, [("message", JVal.s "License number not found in PPB database")]⟩, st)
        | some _ =>
          match name, email, role with
          | some nm, some em, some rl =>
            (⟨200, [("success", JVal.b true),
                    ("message", JVal.s "Registration pending verification by admin")]⟩,
             { st with users := st.users ++
                 [{ name := nm, email := em, role := rl, walletAddress := wa,
                    licenseNumber := ln, status := "pending" }] })
          | _, _, _ => (⟨500, [("error", JVal.s "notNull Violation")]⟩, st)

/-- POST /login (server.ts lines 161-178): `findOne({walletAddress,
status:"approved"})`; 404 when absent. -/
def login (st : Store) (w : String) : Response × Store :=
  match st.users.find? (fun u => u.walletAddress == w && u.status == "approved") with
  | none => (⟨404, [("error", JVal.s "User not found or not approved")]⟩, st)
  | some u => (⟨200, [("success", JVal.b true), ("user", JVal.user u)]⟩, st)

/-- POST /approve-request/:wallet (server.ts lines 192-217).  `chain` is the
outcome of `contract.registerUser(...)` followed by `tx.wait()`; both sit in
the try block, so a failure of either is caught and returned as a 500 with
the local status flip (`user.status = "approved"; await user.save()`) never
executed. -/
def approve (chain : Except String Unit) (st : Store) (w : String) :
    Response × Store × List ChainCall :=
  match st.users.find? (fun v => v.walletAddress == w && v.status == "pending") with
  | none => (⟨404, [("error", JVal.s "User not found or already processed")]⟩, st, [])
  | some u =>
    let call := ChainCall.registerUser u.walletAddress u.name u.role
    match chain with
    | Except.error msg => (⟨500, [("error", JVal.s msg)]⟩, st, [call])
    | Except.ok _ =>
      (⟨200, [("success", JVal.b true),
              ("message", JVal.s "User approved and registered on chain")]⟩,
       { st with users := (updateFirst
           (fun v => v.walletAddress == w && v.status == "pending")
           (fun v => { v with status := "approved" }) st.users) },
       [call])

/-- POST /reject-request/:wallet (server.ts lines 220-236): find the pending
row, `destroy()` it; no contract call. -/
def reject (st : Store) (w : String) : Response × Store × List ChainCall :=
  match st.users.find? (fun v => v.walletAddress == w && v.status == "pending") with
  | none => (⟨404, [("error", JVal.s "User not found or already processed")]⟩, st, [])
  | some _ =>
    (⟨200, [("success", JVal.b true), ("message", JVal.s "User registration rejected")]⟩,
     { st with users := (removeFirst
         (fun v => v.walletAddress == w && v.status == "pending") st.users) },
     [])

/-- GET /api/user-status/:wallet (server.ts lines 278-293): 404 with
`{status:"not_found"}` when no row, else `{status: user.status}`. -/
def userStatus (st : Store) (w : String) : Response :=
  match st.users.find? (fun u => u.walletAddress == w) with
  | none => ⟨404, [("status", JVal.s "not_found")]⟩
  | some u => ⟨200, [("status", JVal.s u.status)]⟩

/-- JS truthiness of a request-body string field: absent or empty is falsy. -/
def jsTruthy (v : Option String) : Bool := !(v.getD "" == "")

/-- POST /register-product (part_001 lines 115-146).  `pin` is the outcome of
`uploadToIPFS(details)` (part_001 lines 57-84: an axios POST to Pinata that
returns `response.data`, whose `IpfsHash` field is then read; on failure the
helper rethrows).  `chain` is `contract.registerProduct` + `tx.wait()`.
`txHash`, `frontendUrl` and the QR encoder are environment inputs. -/
def registerProduct (pin : Except String String) (chain : Except String Unit)
    (txHash frontendUrl : String) (qr : String → String)
    (name batchId details : Option String) : Response × List ChainCall :=
  if jsTruthy name && jsTruthy batchId && jsTruthy details then
    match pin with
    | Except.error msg => (⟨500, [("error", JVal.s msg)]⟩, [])
    | Except.ok ipfsHash =>
      let call := ChainCall.registerProduct (name.getD "") (batchId.getD "") ipfsHash
      match chain with
      | Except.error msg => (⟨500, [("error", JVal.s msg)]⟩, [call])
      | Except.ok _ =>
        let verifyUrl := frontendUrl ++ "/verify/" ++ batchId.getD ""
        (⟨200, [("txHash", JVal.s txHash), ("ipfsHash", JVal.s ipfsHash),
                ("verifyUrl", JVal.s verifyUrl), ("qrCode", JVal.s (qr verifyUrl))]⟩,
         [call])
  else
    (⟨400, [("error", JVal.s "Missing fields: name, batchId, details")]⟩, [])

/-- POST /revoke-batch/:id (server.ts lines 406-424).  `batchId` is
`Number(req.params.id)` with `none` standing for NaN; the guard is
`!batchId || batchId <= 0`, where both NaN and 0 are falsy. -/
def revokeBatchMain (chain : Except String Unit)
    (batchId : Option Int) (reason : Option String) : Response × List ChainCall :=
  let r := reason.getD "Revoked by admin"
  match batchId with
  | none => (⟨400, [("error", JVal.s "Invalid batch id")]⟩, [])
  | some b =>
    if b ≤ 0 then (⟨400, [("error", JVal.s "Invalid batch id")]⟩, [])
    else
      let call := ChainCall.revokeBatch b (some r)
      match chain with
      | Except.error msg => (⟨500, [("error", JVal.s msg)]⟩, [call])
      | Except.ok _ =>
        (⟨200, [("success", JVal.b true), ("message", JVal.s "Batch revoked on chain")]⟩,
         [call])

/-- POST /revoke-batch (part_001 lines 166-180).  The only guard is
`if (!batchId)`: absent or zero is falsy, and `contract.revokeBatch` is then
called with the batchId alone (no reason argument). -/
def revokeBatchAlt (chain : Except String Unit) (txHash : String)
    (batchId : Option Int) : Response × List ChainCall :=
  match batchId with
  | none => (⟨400, [("error", JVal.s "Missing batchId")]⟩, [])
  | some b =>
    if b = 0 then (⟨400, [("error", JVal.s "Missing batchId")]⟩, [])
    else
      let call := ChainCall.revokeBatch b none
      match chain with
      | Except.error msg => (⟨500, [("error", JVal.s msg)]⟩, [call])
      | Except.ok _ => (⟨200, [("txHash", JVal.s txHash)]⟩, [call])

/-- The 20 synthetic PPB rows built by the startup loop (server.ts lines
450-458): `for i in 1..20`, license `PPB-${1000+i}`, role `((i-1)%3)+1`. -/
def seedPPB : List PPBRow :=
  (List.range 20).map (fun i =>
    let k := i + 1
    { name := "Verified Entity " ++ toString k,
      email := "verified" ++ toString k ++ "@example.com",
      licenseNumber := "PPB-" ++ toString (1000 + k),
      role := Int.ofNat ((k - 1) % 3) + 1 })

/-- Startup seeding (server.ts lines 443-461): seed the PPB table only when
`PPBRecord.count()` is zero. -/
def startupSeed (ppb : List PPBRow) : List PPBRow :=
  if ppb.length = 0 then seedPPB else ppb

/-- The walletAddress column is declared `unique: true`; a store satisfies
that constraint when no two rows share a wallet address. -/
def WalletUnique (l : List UserRow) : Prop :=
  l.Pairwise (fun a b => a.walletAddress ≠ b.walletAddress)

theorem find?_of_stronger {l : List UserRow} {p q : UserRow → Bool} {u : UserRow}
    (himp : ∀ x, q x = true → p x = true)
    (hf : l.find? p = some u) (hq : q u = true) :
    l.find? q = some u := by
  induction l with
  | nil => simp at hf
  | cons a t ih =>
    by_cases hpa : p a = true
    · rw [List.find?_cons_of_pos _ hpa] at hf
      injection hf with hau
      subst hau
      rw [List.find?_cons_of_pos _ hq]
    · have hqa : ¬ q a = true := fun h => hpa (himp a h)
      rw [List.find?_cons_of_neg _ hpa] at hf
      rw [List.find?_cons_of_neg _ hqa]
      exact ih hf

theorem find?_status_none {l : List UserRow} {w s : String} {u : UserRow}
    (hU : WalletUnique l)
    (hf : l.find? (fun v => v.walletAddress == w) = some u)
    (hs : u.status ≠ s) :
    l.find? (fun v => v.walletAddress == w && v.status == s) = none := by
  rw [List.find?_eq_none]
  intro x hx hmatch
  simp only [Bool.and_eq_true, beq_iff_eq] at hmatch
  have hu_mem : u ∈ l := List.mem_of_find?_eq_some hf
  have hu_w : u.walletAddress = w := by
    have h := List.find?_some hf
    simpa using h
  by_cases hxu : x = u
  · subst hxu
    exact hs hmatch.2
  · have hsym : Symmetric (fun a b : UserRow => a.walletAddress ≠ b.walletAddress) :=
      fun a b h => fun hw => h hw.symm
    have hne := hU.forall hsym hx hu_mem hxu
    exact hne (hmatch.1.trans hu_w.symm)

theorem find?_wallet_after_remove {l : List UserRow} {w : String} {u : UserRow}
    (hU : WalletUnique l)
    (hf : l.find? (fun v => v.walletAddress == w) = some u)
    (hp : u.status = "pending") :
    (removeFirst (fun v => v.walletAddress == w && v.status == "pending") l).find?
      (fun v => v.walletAddress == w) = none := by
  induction l with
  | nil => simp at hf
  | cons a t ih =>
    by_cases hpa : (a.walletAddress == w && a.status == "pending") = true
    · rw [removeFirst, if_pos hpa]
      rw [List.find?_eq_none]
      intro x hx hxw
      simp only [Bool.and_eq_true, beq_iff_eq] at hpa hxw
      have := (List.pairwise_cons.mp hU).1 x hx
      exact this (hpa.1.trans hxw.symm)
    · rw [removeFirst, if_neg hpa]
      by_cases haw : (a.walletAddress == w) = true
      · -- then `a` is the first wallet match but is not pending, which
        -- contradicts the found pending row being the first wallet match
        exfalso
        rw [List.find?_cons_of_pos (p := fun v : UserRow => v.walletAddress == w) _ haw] at hf
        injection hf with hau
        subst hau
        simp only [beq_iff_eq] at haw
        exact hpa (by simp [haw, hp])
      · rw [List.find?_cons_of_neg (p := fun v : UserRow => v.walletAddress == w) _ haw]
        rw [List.find?_cons_of_neg (p := fun v : UserRow => v.walletAddress == w) _ haw] at hf
        exact ih (List.pairwise_cons.mp hU).2 hf

/-- C1: for every wallet with a pending row, if the on-chain registerUser
call (or its confirmation wait) fails, Approve returns an error response, the
store is unchanged, and UserStatus still reports "pending".  The status flip
to "approved" happens only after the transaction is confirmed. -/
theorem approve_atomic_on_chain_failure (st : Store) (w msg : String) (u : UserRow)
    (hf : st.users.find? (fun v => v.walletAddress == w) = some u)
    (hp : u.status = "pending") :
    approve (Except.error msg) st w =
      (⟨500, [("error", JVal.s msg)]⟩, st,
       [ChainCall.registerUser u.walletAddress u.name u.role]) ∧
    userStatus st w = ⟨200, [("status", JVal.s "pending")]⟩ := by
  have huw : (u.walletAddress == w) = true := List.find?_some (p := fun v : UserRow => v.walletAddress == w) hf
  have hfp : st.users.find? (fun v => v.walletAddress == w && v.status == "pending") = some u :=
    find?_of_stronger (fun x hx => (Bool.and_eq_true _ _).mp hx |>.1) hf
      (by simp [huw, hp])
  constructor
  · simp [approve, hfp]
  · simp [userStatus, hf, hp]

theorem approve_atomic_on_chain_failure_witness :
    approve (Except.error "execution reverted")
        ⟨[⟨"Acme Pharma", "a@x.com", 1, "0xABC", "PPB-1001", "pending"⟩], []⟩ "0xABC" =
      (⟨500, [("error", JVal.s "execution reverted")]⟩,
       ⟨[⟨"Acme Pharma", "a@x.com", 1, "0xABC", "PPB-1001", "pending"⟩], []⟩,
       [ChainCall.registerUser "0xABC" "Acme Pharma" 1]) ∧
    userStatus ⟨[⟨"Acme Pharma", "a@x.com", 1, "0xABC", "PPB-1001", "pending"⟩], []⟩ "0xABC" =
      ⟨200, [("status", JVal.s "pending")]⟩ :=
  approve_atomic_on_chain_failure _ "0xABC" "execution reverted"
    ⟨"Acme Pharma", "a@x.com", 1, "0xABC", "PPB-1001", "pending"⟩ rfl rfl

/-- C3: a signup for a walletAddress that already has a row fails with the
conflict response (HTTP 400, "User already registered locally. Please log
in.") regardless of the other field values, and the store is unchanged.  The
existing-row check runs before the license lookup and the create. -/
theorem signup_conflict_on_existing_wallet (st : Store) (wa : String) (u : UserRow)
    (name email : Option String) (role : Option Int) (licenseNumber : Option String)
    (hwa : wa ≠ "")
    (hf : st.users.find? (fun v => v.walletAddress == wa) = some u) :
    signup st name email role (some wa) licenseNumber =
      (⟨400, [("message", JVal.s "User already registered locally. Please log in.")]⟩, st) := by
  simp [signup, hwa, hf]

theorem signup_conflict_on_existing_wallet_witness :
    signup ⟨[⟨"Acme Pharma", "a@x.com", 1, "0xABC", "PPB-1001", "pending"⟩], []⟩
        none none none (some "0xABC") none =
      (⟨400, [("message", JVal.s "User already registered locally. Please log in.")]⟩,
       ⟨[⟨"Acme Pharma", "a@x.com", 1, "0xABC", "PPB-1001", "pending"⟩], []⟩) :=
  signup_conflict_on_existing_wallet _ "0xABC"
    ⟨"Acme Pharma", "a@x.com", 1, "0xABC", "PPB-1001", "pending"⟩
    none none none none (by decide) rfl

/-- C5: once a wallet's row is approved, both Approve and Reject on that
wallet return the 404 "User not found or already processed" response, leave
the store unchanged, and attempt no contract call (so a second Approve cannot
re-trigger the on-chain registration).  Both routes match only rows whose
status is still "pending". -/
theorem approved_wallet_is_terminal (ch : Except String Unit) (st : Store)
    (w : String) (u : UserRow)
    (hU : WalletUnique st.users)
    (hf : st.users.find? (fun v => v.walletAddress == w) = some u)
    (ha : u.status = "approved") :
    approve ch st w = (⟨404, [("error", JVal.s "User not found or already processed")]⟩, st, []) ∧
    reject st w = (⟨404, [("error", JVal.s "User not found or already processed")]⟩, st, []) := by
  have hnone : st.users.find? (fun v => v.walletAddress == w && v.status == "pending") = none :=
    find?_status_none hU hf (by rw [ha]; decide)
  exact ⟨by simp [approve, hnone], by simp [reject, hnone]⟩

theorem approved_wallet_is_terminal_witness :
    approve (Except.ok ()) ⟨[⟨"Acme Pharma", "a@x.com", 1, "0xABC", "PPB-1001", "approved"⟩], []⟩ "0xABC" =
      (⟨404, [("error", JVal.s "User not found or already processed")]⟩,
       ⟨[⟨"Acme Pharma", "a@x.com", 1, "0xABC", "PPB-1001", "approved"⟩], []⟩, []) ∧
    reject ⟨[⟨"Acme Pharma", "a@x.com", 1, "0xABC", "PPB-1001", "approved"⟩], []⟩ "0xABC" =
      (⟨404, [("error", JVal.s "User not found or already processed")]⟩,
       ⟨[⟨"Acme Pharma", "a@x.com", 1, "0xABC", "PPB-1001", "approved"⟩], []⟩, []) :=
  approved_wallet_is_terminal (Except.ok ()) _ "0xABC"
    ⟨"Acme Pharma", "a@x.com", 1, "0xABC", "PPB-1001", "approved"⟩
    (by simp [WalletUnique]) rfl rfl

/-- C6: for every wallet with a pending row, Reject succeeds, deletes that
row, makes no contract call, and a subsequent UserStatus returns the 404
"not_found" result (never the string "rejected"). -/
theorem reject_removes_row (st : Store) (w : String) (u : UserRow)
    (hU : WalletUnique st.users)
    (hf : st.users.find? (fun v => v.walletAddress == w) = some u)
    (hp : u.status = "pending") :
    (reject st w).1 = ⟨200, [("success", JVal.b true),
                             ("message", JVal.s "User registration rejected")]⟩ ∧
    (reject st w).2.2 = [] ∧
    userStatus (reject st w).2.1 w = ⟨404, [("status", JVal.s "not_found")]⟩ := by
  have huw : (u.walletAddress == w) = true := List.find?_some (p := fun v : UserRow => v.walletAddress == w) hf
  have hfp : st.users.find? (fun v => v.walletAddress == w && v.status == "pending") = some u :=
    find?_of_stronger (fun x hx => (Bool.and_eq_true _ _).mp hx |>.1) hf
      (by simp [huw, hp])
  have hrem := find?_wallet_after_remove hU hf hp
  refine ⟨by simp [reject, hfp], by simp [reject, hfp], ?_⟩
  simp [reject, hfp, userStatus, hrem]

theorem reject_removes_row_witness :
    (reject ⟨[⟨"Acme Pharma", "a@x.com", 1, "0xABC", "PPB-1001", "pending"⟩], []⟩ "0xABC").1 =
      ⟨200, [("success", JVal.b true), ("message", JVal.s "User registration rejected")]⟩ ∧
    (reject ⟨[⟨"Acme Pharma", "a@x.com", 1, "0xABC", "PPB-1001", "pending"⟩], []⟩ "0xABC").2.2 = [] ∧
    userStatus (reject ⟨[⟨"Acme Pharma", "a@x.com", 1, "0xABC", "PPB-1001", "pending"⟩], []⟩ "0xABC").2.1
        "0xABC" = ⟨404, [("status", JVal.s "not_found")]⟩ :=
  reject_removes_row _ "0xABC" ⟨"Acme Pharma", "a@x.com", 1, "0xABC", "PPB-1001", "pending"⟩
    (by simp [WalletUnique]) rfl rfl

/-- C7: Login never mutates the store; it returns the 404 "User not found or
not approved" response exactly when no row matches both the walletAddress and
status "approved"; in particular a wallet whose row is still pending fails
even though the row exists. -/
theorem login_requires_approved :
    (∀ st w, (login st w).2 = st) ∧
    (∀ st w, st.users.find? (fun u => u.walletAddress == w && u.status == "approved") = none →
      (login st w).1 = ⟨404, [("error", JVal.s "User not found or not approved")]⟩) ∧
    (∀ st w u, WalletUnique st.users →
      st.users.find? (fun v => v.walletAddress == w) = some u → u.status = "pending" →
      (login st w).1 = ⟨404, [("error", JVal.s "User not found or not approved")]⟩) := by
  refine ⟨?_, ?_, ?_⟩
  · intro st w
    unfold login
    split <;> rfl
  · intro st w h
    simp [login, h]
  · intro st w u hU hf hp
    have hnone : st.users.find? (fun v => v.walletAddress == w && v.status == "approved") = none :=
      find?_status_none hU hf (by rw [hp]; decide)
    simp [login, hnone]

theorem login_requires_approved_witness :
    (login ⟨[⟨"Acme Pharma", "a@x.com", 1, "0xABC", "PPB-1001", "pending"⟩], []⟩ "0xABC").1 =
      ⟨404, [("error", JVal.s "User not found or not approved")]⟩ :=
  login_requires_approved.2.2 ⟨[⟨"Acme Pharma", "a@x.com", 1, "0xABC", "PPB-1001", "pending"⟩], []⟩
    "0xABC" ⟨"Acme Pharma", "a@x.com", 1, "0xABC", "PPB-1001", "pending"⟩
    (by simp [WalletUnique]) rfl rfl

/-- C2: for every register-product request with name, batchId and details
present (truthy), if the pinning upload fails the route answers 500 with the
upstream message and the contract's registerProduct is never called: the
chain-call list of that run is empty. -/
theorem registerProduct_aborts_when_pin_fails (chain : Except String Unit)
    (txHash frontendUrl : String) (qr : String → String)
    (name batchId details : Option String) (msg : String)
    (hn : jsTruthy name = true) (hb : jsTruthy batchId = true)
    (hd : jsTruthy details = true) :
    registerProduct (Except.error msg) chain txHash frontendUrl qr name batchId details =
      (⟨500, [("error", JVal.s msg)]⟩, []) := by
  simp [registerProduct, hn, hb, hd]

theorem registerProduct_aborts_when_pin_fails_witness :
    registerProduct (Except.error "Pinata upload failed") (Except.ok ())
        "0xT" "http://front" (fun s => s) (some "Aspirin") (some "B-77") (some "lot data") =
      (⟨500, [("error", JVal.s "Pinata upload failed")]⟩, []) :=
  registerProduct_aborts_when_pin_fails (Except.ok ()) "0xT" "http://front" (fun s => s)
    (some "Aspirin") (some "B-77") (some "lot data") "Pinata upload failed" rfl rfl rfl

/-- C4 counterexample: with an empty PPB mirror, a signup whose license has
no matching PPBRecord answers HTTP 400 (message "License number not found in
PPB database"), not the HTTP 404 the claim asserts; no row is created. -/
theorem signup_unknown_license_is_400_not_404 :
    (signup ⟨[], []⟩ (some "Acme Pharma") (some "a@x.com") (some 1)
        (some "0xABC") (some "PPB-9999")).1.status = 400 ∧
    ¬ (signup ⟨[], []⟩ (some "Acme Pharma") (some "a@x.com") (some 1)
        (some "0xABC") (some "PPB-9999")).1.status = 404 ∧
    (signup ⟨[], []⟩ (some "Acme Pharma") (some "a@x.com") (some 1)
        (some "0xABC") (some "PPB-9999")).2 = ⟨[], []⟩ := by
  refine ⟨rfl, by decide, rfl⟩

/-- C4 amended: for every provided licenseNumber with no matching PPBRecord
(and a non-empty, not-yet-registered wallet), signup fails with HTTP 400 and
the message "License number not found in PPB database", and no row is
created. -/
theorem signup_unknown_license_rejected (st : Store) (name email : Option String)
    (role : Option Int) (wa ln : String)
    (hwa : wa ≠ "")
    (hnou : st.users.find? (fun v => v.walletAddress == wa) = none)
    (hl : st.ppb.find? (fun p => p.licenseNumber == ln) = none) :
    signup st name email role (some wa) (some ln) =
      (⟨400, [("message", JVal.s "License number not found in PPB database")]⟩, st) := by
  simp [signup, hwa, hnou, hl]

theorem signup_unknown_license_rejected_witness :
    signup ⟨[], []⟩ (some "Acme Pharma") (some "a@x.com") (some 1)
        (some "0xABC") (some "PPB-9999") =
      (⟨400, [("message", JVal.s "License number not found in PPB database")]⟩, ⟨[], []⟩) :=
  signup_unknown_license_rejected ⟨[], []⟩ (some "Acme Pharma") (some "a@x.com") (some 1)
    "0xABC" "PPB-9999" (by decide) rfl rfl

/-- C8 counterexample: in the part_001 variant of the revoke route, the
non-positive batchId -1 passes the `if (!batchId)` guard, so the contract
revokeBatch call IS made and the response is not a validation error — the
claim's "no contract call for non-positive batchId" fails there. -/
theorem revokeBatch_alt_negative_id_reaches_contract :
    (revokeBatchAlt (Except.ok ()) "0xT" (some (-1))).2 =
      [ChainCall.revokeBatch (-1) none] ∧
    (revokeBatchAlt (Except.ok ()) "0xT" (some (-1))).1 =
      ⟨200, [("txHash", JVal.s "0xT")]⟩ := by
  exact ⟨rfl, rfl⟩

/-- C8 amended: the main variant (/revoke-batch/:id) behaves as claimed —
missing/NaN or non-positive batchId answers 400 "Invalid batch id" with no
contract call, and a positive batchId produces exactly one revokeBatch call
(with the defaulted reason).  The part_001 variant (/revoke-batch) rejects
only a missing or zero batchId; any other batchId, negative included,
produces exactly one revokeBatch call. -/
theorem revokeBatch_validation_behaviour :
    (∀ ch r, revokeBatchMain ch none r =
      (⟨400, [("error", JVal.s "Invalid batch id")]⟩, [])) ∧
    (∀ ch r b, b ≤ 0 → revokeBatchMain ch (some b) r =
      (⟨400, [("error", JVal.s "Invalid batch id")]⟩, [])) ∧
    (∀ ch r b, 0 < b → (revokeBatchMain ch (some b) r).2 =
      [ChainCall.revokeBatch b (some (r.getD "Revoked by admin"))]) ∧
    (∀ ch tx, revokeBatchAlt ch tx none =
      (⟨400, [("error", JVal.s "Missing batchId")]⟩, [])) ∧
    (∀ ch tx, revokeBatchAlt ch tx (some 0) =
      (⟨400, [("error", JVal.s "Missing batchId")]⟩, [])) ∧
    (∀ ch tx b, b ≠ 0 → (revokeBatchAlt ch tx (some b)).2 =
      [ChainCall.revokeBatch b none]) := by
  refine ⟨fun ch r => rfl, ?_, ?_, fun ch tx => rfl, ?_, ?_⟩
  · intro ch r b hb
    simp [revokeBatchMain, hb]
  · intro ch r b hb
    cases ch <;> simp [revokeBatchMain, not_le.mpr hb, hb]
  · intro ch tx
    simp [revokeBatchAlt]
  · intro ch tx b hb
    cases ch <;> simp [revokeBatchAlt, hb]

theorem revokeBatch_validation_behaviour_witness :
    revokeBatchMain (Except.ok ()) none none =
      (⟨400, [("error", JVal.s "Invalid batch id")]⟩, []) ∧
    revokeBatchMain (Except.ok ()) (some (-3)) none =
      (⟨400, [("error", JVal.s "Invalid batch id")]⟩, []) ∧
    (revokeBatchMain (Except.ok ()) (some 7) (some "counterfeit")).2 =
      [ChainCall.revokeBatch 7 (some "counterfeit")] ∧
    revokeBatchAlt (Except.ok ()) "0xT" none =
      (⟨400, [("error", JVal.s "Missing batchId")]⟩, []) ∧
    revokeBatchAlt (Except.ok ()) "0xT" (some 0) =
      (⟨400, [("error", JVal.s "Missing batchId")]⟩, []) ∧
    (revokeBatchAlt (Except.ok ()) "0xT" (some 7)).2 = [ChainCall.revokeBatch 7 none] :=
  ⟨revokeBatch_validation_behaviour.1 (Except.ok ()) none,
   revokeBatch_validation_behaviour.2.1 (Except.ok ()) none (-3) (by decide),
   revokeBatch_validation_behaviour.2.2.1 (Except.ok ()) (some "counterfeit") 7 (by decide),
   revokeBatch_validation_behaviour.2.2.2.1 (Except.ok ()) "0xT",
   revokeBatch_validation_behaviour.2.2.2.2.1 (Except.ok ()) "0xT",
   revokeBatch_validation_behaviour.2.2.2.2.2 (Except.ok ()) "0xT" 7 (by decide)⟩

/-- C9: startup on an empty PPB table seeds exactly the 20 records
"PPB-1001" .. "PPB-1020" (and never re-seeds a non-empty table); the example
signup with license "PPB-1001" and a fresh wallet then succeeds with message
"Registration pending verification by admin", and UserStatus for that wallet
returns "pending". -/
theorem startup_seed_and_signup_example :
    (startupSeed []).map (fun p => p.licenseNumber) =
      ["PPB-1001", "PPB-1002", "PPB-1003", "PPB-1004", "PPB-1005",
       "PPB-1006", "PPB-1007", "PPB-1008", "PPB-1009", "PPB-1010",
       "PPB-1011", "PPB-1012", "PPB-1013", "PPB-1014", "PPB-1015",
       "PPB-1016", "PPB-1017", "PPB-1018", "PPB-1019", "PPB-1020"] ∧
    (startupSeed []).length = 20 ∧
    (∀ ppb, ppb ≠ [] → startupSeed ppb = ppb) ∧
    (signup ⟨[], startupSeed []⟩ (some "Acme Pharma") (some "a@x.com") (some 1)
        (some "0xABC") (some "PPB-1001")).1 =
      ⟨200, [("success", JVal.b true),
             ("message", JVal.s "Registration pending verification by admin")]⟩ ∧
    userStatus (signup ⟨[], startupSeed []⟩ (some "Acme Pharma") (some "a@x.com") (some 1)
        (some "0xABC") (some "PPB-1001")).2 "0xABC" =
      ⟨200, [("status", JVal.s "pending")]⟩ := by
  refine ⟨by decide, by decide, ?_, by decide, by decide⟩
  intro ppb h
  unfold startupSeed
  rw [if_neg (fun hlen => h (List.length_eq_zero.mp hlen))]

theorem startup_seed_and_signup_example_witness :
    startupSeed [⟨"Verified Entity 1", "verified1@example.com", "PPB-1001", 1⟩] =
      [⟨"Verified Entity 1", "verified1@example.com", "PPB-1001", 1⟩] :=
  startup_seed_and_signup_example.2.2.1
    [⟨"Verified Entity 1", "verified1@example.com", "PPB-1001", 1⟩] (by decide)

/-- C10: signup's only client-side validation is the presence check on
walletAddress.  Any non-empty wallet string — well-formed address or not —
with a known license and all other fields present creates a pending row and
succeeds; a request missing name, email, or role is not answered with a 400
validation error but with the 500 surfaced from the store's not-null
constraint, creating no row. -/
theorem signup_no_address_validation :
    (∀ st wa ln nm em rl p,
       wa ≠ "" →
       st.users.find? (fun v => v.walletAddress == wa) = none →
       st.ppb.find? (fun q => q.licenseNumber == ln) = some p →
       signup st (some nm) (some em) (some rl) (some wa) (some ln) =
         (⟨200, [("success", JVal.b true),
                 ("message", JVal.s "Registration pending verification by admin")]⟩,
          ⟨st.users ++ [⟨nm, em, rl, wa, ln, "pending"⟩], st.ppb⟩)) ∧
    (∀ st wa ln name email role p,
       wa ≠ "" →
       st.users.find? (fun v => v.walletAddress == wa) = none →
       st.ppb.find? (fun q => q.licenseNumber == ln) = some p →
       (name = none ∨ email = none ∨ role = none) →
       signup st name email role (some wa) (some ln) =
         (⟨500, [("error", JVal.s "notNull Violation")]⟩, st)) := by
  constructor
  · intro st wa ln nm em rl p hwa hnou hl
    simp [signup, hwa, hnou, hl]
  · intro st wa ln name email role p hwa hnou hl hmiss
    rcases hmiss with h | h | h
    · subst h
      cases email <;> cases role <;> simp [signup, hwa, hnou, hl]
    · subst h
      cases name <;> cases role <;> simp [signup, hwa, hnou, hl]
    · subst h
      cases name <;> cases email <;> simp [signup, hwa, hnou, hl]

theorem signup_no_address_validation_witness :
    signup ⟨[], [⟨"Verified Entity 1", "verified1@example.com", "PPB-1001", 1⟩]⟩
        (some "Acme Pharma") (some "a@x.com") (some 1)
        (some "definitely not an ethereum address") (some "PPB-1001") =
      (⟨200, [("success", JVal.b true),
              ("message", JVal.s "Registration pending verification by admin")]⟩,
       ⟨[⟨"Acme Pharma", "a@x.com", 1, "definitely not an ethereum address",
          "PPB-1001", "pending"⟩],
        [⟨"Verified Entity 1", "verified1@example.com", "PPB-1001", 1⟩]⟩) ∧
    signup ⟨[], [⟨"Verified Entity 1", "verified1@example.com", "PPB-1001", 1⟩]⟩
        none (some "a@x.com") (some 1)
        (some "definitely not an ethereum address") (some "PPB-1001") =
      (⟨500, [("error", JVal.s "notNull Violation")]⟩,
       ⟨[], [⟨"Verified Entity 1", "verified1@example.com", "PPB-1001", 1⟩]⟩) :=
  ⟨signup_no_address_validation.1 _ "definitely not an ethereum address" "PPB-1001"
     "Acme Pharma" "a@x.com" 1 ⟨"Verified Entity 1", "verified1@example.com", "PPB-1001", 1⟩
     (by decide) rfl rfl,
   signup_no_address_validation.2 _ "definitely not an ethereum address" "PPB-1001"
     none (some "a@x.com") (some 1) ⟨"Verified Entity 1", "verified1@example.com", "PPB-1001", 1⟩
     (by decide) rfl rfl (Or.inl rfl)⟩

end PharmaTrust
